import Mathlib

/-!
Shallow embedding of the dashboard's survey query/aggregation/pagination
pipeline (src/src/pages/Dashboard.tsx).  JavaScript strings are modelled as
lists of characters; JavaScript arrays as Lean lists; `null` as `Option.none`.
The two near-identical dashboard variants in the file share the logic embedded
here (`calculateStats`, `applyFilters`, pagination, `goToPage`,
`handleDeleteSurvey`, `handleSubmit`).
-/

namespace PodcastSurveys

/-- JavaScript string, modelled as its sequence of characters. -/
abbrev JStr := List Char

/-- The sentinel value of the topic/format selects: the literal "all". -/
def allValue : JStr := "all".toList

/-- `interface Survey` of Dashboard.tsx. -/
structure Survey where
  id : JStr
  name : JStr
  topics : List JStr
  description : JStr
  podcast_formats : List JStr
  suggested_guest : Option JStr
  created_at : JStr
deriving DecidableEq

/-- `String.prototype.toLowerCase()`, character by character. -/
def toLowerJS (s : JStr) : JStr := s.map Char.toLower

/-- `haystack.includes(needle)` for JavaScript strings: whether `needle`
occurs contiguously inside `haystack`. -/
def jsIncludes (haystack needle : JStr) : Bool := decide (needle <:+: haystack)

/-- `applyFilters` (Dashboard.tsx lines 84-109 and 509-532): sequentially
filters a copy of `surveys` by topic, format, and case-insensitive search. -/
def applyFilters (surveys : List Survey)
    (topicFilter formatFilter searchTerm : JStr) : List Survey :=
  let filtered := surveys
  let filtered := if topicFilter ≠ allValue then
      filtered.filter (fun s => s.topics.contains topicFilter)
    else filtered
  let filtered := if formatFilter ≠ allValue then
      filtered.filter (fun s => s.podcast_formats.contains formatFilter)
    else filtered
  let filtered := if searchTerm ≠ [] then
      let term := toLowerJS searchTerm
      filtered.filter (fun s =>
        jsIncludes (toLowerJS s.name) term ||
        jsIncludes (toLowerJS s.description) term ||
        (match s.suggested_guest with
         | some g => !g.isEmpty && jsIncludes (toLowerJS g) term
         | none => false))
    else filtered
  filtered

/-- `itemsPerPage` (fixed at 10 by `useState(10)`). -/
def itemsPerPage : Nat := 10

/-- `totalPages = Math.ceil(filteredSurveys.length / itemsPerPage)`
(Dashboard.tsx lines 137 and 543): ceiling division, with no lower bound. -/
def totalPages (filteredCount : Nat) : Nat :=
  (filteredCount + itemsPerPage - 1) / itemsPerPage

/-- `array.slice(start, stop)` for JavaScript arrays (non-negative indices):
the elements at indices `start ≤ i < stop` that exist. -/
def jsSlice (l : List α) (start stop : Nat) : List α :=
  (l.take stop).drop start

/-- `currentSurveys = filteredSurveys.slice(startIndex, endIndex)` with
`startIndex = (currentPage-1)*itemsPerPage`, `endIndex = startIndex +
itemsPerPage` (Dashboard.tsx lines 138-140 and 544-546). -/
def currentSurveys (filteredSurveys : List Survey) (currentPage : Nat) :
    List Survey :=
  jsSlice filteredSurveys ((currentPage - 1) * itemsPerPage)
    ((currentPage - 1) * itemsPerPage + itemsPerPage)

/-- `goToPage` (Dashboard.tsx lines 142-144 and 548-550):
`setCurrentPage(Math.min(Math.max(1, page), totalPages))` where `totalPages`
is derived from the current filtered collection. -/
def goToPage (page : Int) (filteredSurveys : List Survey) : Int :=
  min (max 1 page) (totalPages filteredSurveys.length : Int)

/-- Spec-side paginator formula, written from the specification's words:
`totalPages = max(ceil(filteredCount/itemsPerPage), 1)`. -/
def totalPagesSpec (filteredCount : Nat) : Nat :=
  max ((filteredCount + itemsPerPage - 1) / itemsPerPage) 1

/-- A JavaScript plain object used as a counter table: ordered key/value
entries, later assignments to an existing key updating in place. -/
abbrev Stats := List (JStr × Nat)

/-- `tbl[key] = (tbl[key] || 0) + 1`: increment the entry for `key`,
creating it (appended, value 1) when absent. -/
def bump (tbl : Stats) (key : JStr) : Stats :=
  match tbl with
  | [] => [(key, 1)]
  | (k, v) :: rest =>
      if k = key then (k, v + 1) :: rest else (k, v) :: bump rest key

/-- `tbl[key] || 0`: look a key up in a counter table, 0 when absent. -/
def statsGet (tbl : Stats) (key : JStr) : Nat :=
  match tbl with
  | [] => 0
  | (k, v) :: rest => if k = key then v else statsGet rest key

/-- `calculateStats` (Dashboard.tsx lines 66-82 and 491-507): for each survey,
count each of its topics and each of its podcast formats. -/
def calculateStats (data : List Survey) : Stats × Stats :=
  data.foldl
    (fun acc survey =>
      (survey.topics.foldl bump acc.1,
       survey.podcast_formats.foldl bump acc.2))
    ([], [])

/-- The dashboard component state relevant to the pipeline. -/
structure DashState where
  surveys : List Survey
  filteredSurveys : List Survey
  topicFilter : JStr
  formatFilter : JStr
  searchTerm : JStr
  currentPage : Int
  deleteItems : List JStr
deriving DecidableEq

/-- The body of `applyFilters` as a state transition: recompute
`filteredSurveys` from the current inputs, then `setCurrentPage(1)`. -/
def applyFiltersState (st : DashState) : DashState :=
  { st with
    filteredSurveys :=
      applyFilters st.surveys st.topicFilter st.formatFilter st.searchTerm
    currentPage := 1 }

/-- Effect of editing the topic filter: the `useEffect` with dependencies
`[surveys, topicFilter, formatFilter, searchTerm]` reruns `applyFilters`. -/
def changeTopicFilter (st : DashState) (v : JStr) : DashState :=
  applyFiltersState { st with topicFilter := v }

/-- Effect of editing the format filter (same `useEffect` wiring). -/
def changeFormatFilter (st : DashState) (v : JStr) : DashState :=
  applyFiltersState { st with formatFilter := v }

/-- Effect of editing the search term (same `useEffect` wiring). -/
def changeSearchTerm (st : DashState) (v : JStr) : DashState :=
  applyFiltersState { st with searchTerm := v }

/-- Effect of replacing the source record collection (same `useEffect`
wiring: `surveys` is in the dependency list). -/
def changeSurveys (st : DashState) (v : List Survey) : DashState :=
  applyFiltersState { st with surveys := v }

/-- `handleDeleteSurvey(ids)` (Dashboard.tsx lines 112-122): gated by
`window.confirm`; on store success keep only surveys whose id is not in
`ids` and clear `deleteItems`; on store error leave the state unchanged. -/
def handleDeleteSurvey (st : DashState) (ids : List JStr)
    (confirmed storeError : Bool) : DashState :=
  if confirmed then
    if storeError then st
    else
      { st with
        surveys := st.surveys.filter (fun s => !(ids.contains s.id))
        deleteItems := [] }
  else st

/-- `interface FormData` of the survey form. -/
structure FormData where
  name : JStr
  topics : List JStr
  description : JStr
  podcast_formats : List JStr
  suggested_guest : JStr
deriving DecidableEq

/-- The row object passed to the store insert call. -/
structure InsertPayload where
  name : JStr
  topics : List JStr
  description : JStr
  podcast_formats : List JStr
  suggested_guest : Option JStr
deriving DecidableEq

/-- What `handleSubmit` does before the store answers: either it stops with
an inline validation error, or it issues exactly one insert request. -/
inductive SubmitResult where
  | validationError (msg : JStr)
  | insertRequest (payload : InsertPayload)
deriving DecidableEq

/-- First validation message of `handleSubmit`. -/
def msgTopics : JStr := "Please select at least one topic".toList

/-- Second validation message of `handleSubmit`. -/
def msgFormats : JStr := "Please select at least one podcast format".toList

/-- `handleSubmit` (Dashboard.tsx lines 969-1013 and 1325-1369): reject when
no topic or no format is selected, otherwise insert one row, sending
`suggested_guest || null` (the empty string becomes `null`). -/
def handleSubmit (fd : FormData) : SubmitResult :=
  if fd.topics.length = 0 then .validationError msgTopics
  else if fd.podcast_formats.length = 0 then .validationError msgFormats
  else
    .insertRequest
      { name := fd.name
        topics := fd.topics
        description := fd.description
        podcast_formats := fd.podcast_formats
        suggested_guest :=
          if fd.suggested_guest.isEmpty then none else some fd.suggested_guest }

/-- Spec-side topic predicate: topicFilter is "all" or the record's topics
contain it. -/
def topicPred (topicFilter : JStr) (s : Survey) : Prop :=
  topicFilter = allValue ∨ topicFilter ∈ s.topics

/-- Spec-side format predicate: formatFilter is "all" or the record's
podcast formats contain it. -/
def formatPred (formatFilter : JStr) (s : Survey) : Prop :=
  formatFilter = allValue ∨ formatFilter ∈ s.podcast_formats

/-- Spec-side search predicate: searchTerm is empty, or case-insensitively a
substring of the name, of the description, or of the suggested guest when one
is present. -/
def searchPred (searchTerm : JStr) (s : Survey) : Prop :=
  searchTerm = [] ∨
  toLowerJS searchTerm <:+: toLowerJS s.name ∨
  toLowerJS searchTerm <:+: toLowerJS s.description ∨
  ∃ g, s.suggested_guest = some g ∧ toLowerJS searchTerm <:+: toLowerJS g

/-- A nonempty collection has at least one page. -/
theorem one_le_totalPages (L : Nat) (h : 1 ≤ L) : 1 ≤ totalPages L := by
  unfold totalPages itemsPerPage
  omega

/-- C1, counterexample: the code computes `totalPages` as plain ceiling
division with no minimum, so the empty filtered collection yields 0 pages,
not the 1 page the claim requires (`totalPagesSpec`, the spec's formula,
gives 1 there). -/
theorem c1_counterexample :
    totalPages (List.length ([] : List Survey)) = 0 ∧
    totalPagesSpec (List.length ([] : List Survey)) = 1 ∧
    totalPages (List.length ([] : List Survey)) ≠
      totalPagesSpec (List.length ([] : List Survey)) := by
  refine ⟨rfl, rfl, ?_⟩
  decide

/-- C1, amended: `totalPages` is the ceiling of filteredCount / 10 with no
minimum applied; it agrees with the spec's `max(ceil, 1)` formula exactly on
nonempty filtered collections, and is 0 on the empty one. -/
theorem c1_amended (L : Nat) :
    totalPages L = (L + itemsPerPage - 1) / itemsPerPage ∧
    (1 ≤ L → totalPages L = totalPagesSpec L) ∧
    totalPages 0 = 0 := by
  refine ⟨rfl, ?_, rfl⟩
  intro h
  have h1 := one_le_totalPages L h
  unfold totalPages itemsPerPage at h1
  unfold totalPages totalPagesSpec itemsPerPage
  omega

/-- C1 amended, witnessed at a collection of 11 records: 2 pages, matching
the spec formula. -/
theorem c1_amended_witness :
    totalPages 11 = totalPagesSpec 11 ∧ totalPages 11 = 2 :=
  ⟨(c1_amended 11).2.1 (by decide), by decide⟩

/-- C2, counterexample: on the empty filtered collection `totalPages` is 0,
and `goToPage(5)` sets `currentPage` to `min(max(1,5),0) = 0`, violating the
claimed invariant `1 ≤ currentPage`. -/
theorem c2_counterexample :
    goToPage 5 ([] : List Survey) = 0 ∧
    ¬ (1 ≤ goToPage 5 ([] : List Survey)) := by
  constructor
  · rfl
  · decide

/-- C2, amended: `goToPage(n)` sets `currentPage = min(max(1,n), totalPages)`.
When the filtered collection is nonempty this is the clamp of n into
`[1, totalPages]` and `1 ≤ currentPage ≤ totalPages` holds for every integer
n; when the filtered collection is empty, `totalPages` is 0 and `currentPage`
becomes 0. -/
theorem c2_amended (n : Int) (filteredSurveys : List Survey) :
    (filteredSurveys ≠ [] →
      1 ≤ goToPage n filteredSurveys ∧
      goToPage n filteredSurveys ≤ totalPages filteredSurveys.length) ∧
    (filteredSurveys = [] → goToPage n filteredSurveys = 0) := by
  constructor
  · intro hne
    have hL : 1 ≤ filteredSurveys.length := List.length_pos.mpr hne
    have h1 : 1 ≤ totalPages filteredSurveys.length :=
      one_le_totalPages _ hL
    constructor
    · refine le_min (le_max_left 1 n) ?_
      exact_mod_cast h1
    · exact min_le_right _ _
  · intro he
    subst he
    unfold goToPage totalPages itemsPerPage
    simp

/-- C2 amended, witnessed: on a one-record collection, `goToPage(-3)` lands
on page 1, inside `[1, totalPages]`. -/
theorem c2_amended_witness :
    1 ≤ goToPage (-3)
        [{ id := [], name := [], topics := [], description := [],
           podcast_formats := [], suggested_guest := none,
           created_at := [] }] ∧
    goToPage (-3)
        [{ id := [], name := [], topics := [], description := [],
           podcast_formats := [], suggested_guest := none,
           created_at := [] }] ≤ totalPages 1 :=
  (c2_amended (-3) _).1 (by simp)

/-- A nonempty term whose lowercasing is a substring of a lowercased guest
string forces that guest string to be nonempty; this is why the code's
truthiness guard on `suggested_guest` never loses a match. -/
theorem guest_ne_nil_of_match (term g : JStr) (hterm : term ≠ [])
    (h : toLowerJS term <:+: toLowerJS g) : ¬ g = [] := by
  intro hg
  subst hg
  rw [show toLowerJS [] = [] from rfl, List.infix_nil] at h
  exact hterm (List.map_eq_nil_iff.mp h)

/-- C3: a record of the collection survives `applyFilters` iff the topic
predicate, the format predicate and the search predicate all hold for it. -/
theorem c3_filter_membership (surveys : List Survey)
    (tf ff term : JStr) (s : Survey) (hs : s ∈ surveys) :
    s ∈ applyFilters surveys tf ff term ↔
      topicPred tf s ∧ formatPred ff s ∧ searchPred term s := by
  obtain ⟨sid, sname, stopics, sdesc, sformats, sguest, screated⟩ := s
  unfold applyFilters topicPred formatPred searchPred
  by_cases htf : tf = allValue <;> by_cases hff : ff = allValue <;>
    by_cases hterm : term = [] <;>
      cases sguest with
      | none =>
          simp [htf, hff, hterm, List.mem_filter, List.elem_iff, jsIncludes, hs]
          try tauto
      | some g =>
          simp [htf, hff, hterm, List.mem_filter, List.elem_iff, jsIncludes, hs]
          try
            have hg := guest_ne_nil_of_match term g hterm
            tauto
          try tauto

/-- C3, witnessed: a record whose topics contain "Tech" survives filtering
by topic "Tech". -/
theorem c3_filter_membership_witness :
    ({ id := [], name := [], topics := ["Tech".toList], description := [],
       podcast_formats := [], suggested_guest := none,
       created_at := [] } : Survey) ∈
      applyFilters
        [{ id := [], name := [], topics := ["Tech".toList], description := [],
           podcast_formats := [], suggested_guest := none, created_at := [] }]
        "Tech".toList allValue [] :=
  (c3_filter_membership _ "Tech".toList allValue [] _
      (List.mem_singleton.mpr rfl)).mpr
    ⟨Or.inr (by simp), Or.inl rfl, Or.inl rfl⟩

/-- C4: filtering yields a sublist of the source collection (every survivor
occurs in it, in the source's relative order), and the unconstrained filter
state (topic "all", format "all", empty search) returns it unchanged. -/
theorem c4_filter_sublist (surveys : List Survey) (tf ff term : JStr) :
    (applyFilters surveys tf ff term).Sublist surveys ∧
    applyFilters surveys allValue allValue [] = surveys := by
  constructor
  · unfold applyFilters
    split <;> split <;> split <;>
      first
        | exact ((List.filter_sublist _).trans
            (List.filter_sublist _)).trans (List.filter_sublist _)
        | exact (List.filter_sublist _).trans (List.filter_sublist _)
        | exact List.filter_sublist _
        | exact List.Sublist.refl _
  · simp [applyFilters]

/-- C5: on a confirmed, successful bulk delete of the id set `ids`, a record
remains in `surveys` iff it was there and its id is not in `ids`, the
survivors keep their relative order (sublist of the old collection), and the
selection set `deleteItems` is cleared; on store failure the whole state is
unchanged. -/
theorem c5_bulk_delete (st : DashState) (ids : List JStr) :
    (∀ s, s ∈ (handleDeleteSurvey st ids true false).surveys ↔
        s ∈ st.surveys ∧ s.id ∉ ids) ∧
    ((handleDeleteSurvey st ids true false).surveys).Sublist st.surveys ∧
    (handleDeleteSurvey st ids true false).deleteItems = [] ∧
    handleDeleteSurvey st ids true true = st := by
  refine ⟨?_, ?_, rfl, rfl⟩
  · intro s
    simp [handleDeleteSurvey, List.mem_filter, List.elem_iff]
  · exact List.filter_sublist _

/-- C8: after any edit of the topic filter, the format filter, the search
term, or the source collection, the filtered view is the full recomputation
by `applyFilters` over the updated inputs, and `currentPage` is 1 whatever
it was before. -/
theorem c8_filter_change_resets_page (st : DashState) (v : JStr)
    (coll : List Survey) :
    ((changeTopicFilter st v).currentPage = 1 ∧
      (changeTopicFilter st v).filteredSurveys =
        applyFilters st.surveys v st.formatFilter st.searchTerm) ∧
    ((changeFormatFilter st v).currentPage = 1 ∧
      (changeFormatFilter st v).filteredSurveys =
        applyFilters st.surveys st.topicFilter v st.searchTerm) ∧
    ((changeSearchTerm st v).currentPage = 1 ∧
      (changeSearchTerm st v).filteredSurveys =
        applyFilters st.surveys st.topicFilter st.formatFilter v) ∧
    ((changeSurveys st coll).currentPage = 1 ∧
      (changeSurveys st coll).filteredSurveys =
        applyFilters coll st.topicFilter st.formatFilter st.searchTerm) :=
  ⟨⟨rfl, rfl⟩, ⟨rfl, rfl⟩, ⟨rfl, rfl⟩, ⟨rfl, rfl⟩⟩

/-- C9: the submission handler stops with a validation error whenever the
selected topics or the selected formats are empty, and it issues an insert
request exactly when both are nonempty. -/
theorem c9_submit_validation (fd : FormData) :
    ((fd.topics = [] ∨ fd.podcast_formats = []) →
      ∃ m, handleSubmit fd = SubmitResult.validationError m) ∧
    ((∃ p, handleSubmit fd = SubmitResult.insertRequest p) ↔
      (fd.topics ≠ [] ∧ fd.podcast_formats ≠ [])) := by
  unfold handleSubmit
  rcases ht : fd.topics with _ | ⟨t, ts⟩ <;>
    rcases hf : fd.podcast_formats with _ | ⟨f, fs⟩ <;>
      simp

/-- C9, witnessed: a form with no topic selected yields a validation error
and no insert. -/
theorem c9_submit_validation_witness :
    ∃ m, handleSubmit
        { name := [], topics := [], description := [],
          podcast_formats := ["Solo".toList], suggested_guest := [] } =
      SubmitResult.validationError m :=
  (c9_submit_validation _).1 (Or.inl rfl)

/-- C10: in every insert request the handler issues, `suggested_guest` is
`null` exactly when the form's input was the empty string and is the input
verbatim otherwise, while `name`, `description`, `topics` and
`podcast_formats` are inserted verbatim. -/
theorem c10_submit_payload (fd : FormData) (p : InsertPayload)
    (h : handleSubmit fd = SubmitResult.insertRequest p) :
    (p.suggested_guest = none ↔ fd.suggested_guest = []) ∧
    (fd.suggested_guest ≠ [] → p.suggested_guest = some fd.suggested_guest) ∧
    p.name = fd.name ∧ p.description = fd.description ∧
    p.topics = fd.topics ∧ p.podcast_formats = fd.podcast_formats := by
  unfold handleSubmit at h
  rcases ht : fd.topics with _ | ⟨t, ts⟩ <;>
    rcases hf : fd.podcast_formats with _ | ⟨f, fs⟩ <;>
      rw [ht, hf] at h <;> simp at h
  subst h
  by_cases hg : fd.suggested_guest = [] <;> simp [hg, List.isEmpty_iff]

/-- C10, witnessed: a concrete accepted submission with entered guest "G"
inserts `some "G"`, and name/description verbatim. -/
theorem c10_submit_payload_witness :
    (some "G".toList = none ↔ ("G".toList : JStr) = []) ∧
    (("G".toList : JStr) ≠ [] →
      some "G".toList = some ("G".toList : JStr)) ∧
    some "G".toList = some ("G".toList : JStr) ∧
    True := by
  have h := c10_submit_payload
    { name := "N".toList, topics := ["T".toList], description := "D".toList,
      podcast_formats := ["F".toList], suggested_guest := "G".toList }
    { name := "N".toList, topics := ["T".toList], description := "D".toList,
      podcast_formats := ["F".toList], suggested_guest := some "G".toList }
    (by decide)
  exact ⟨h.1, fun hne => h.2.1 hne, by simp, trivial⟩

/-- Number of occurrences of a key in a list of keys. -/
def countOcc (k : JStr) (l : List JStr) : Nat :=
  l.countP (fun x => decide (x = k))

/-- Unfolding `countOcc` over a cons cell. -/
theorem countOcc_cons (k a : JStr) (l : List JStr) :
    countOcc k (a :: l) = countOcc k l + (if a = k then 1 else 0) := by
  simp [countOcc, List.countP_cons]

/-- A key occurs zero times in a list it is not a member of. -/
theorem countOcc_eq_zero (k : JStr) (l : List JStr) (h : k ∉ l) :
    countOcc k l = 0 := by
  rw [countOcc, List.countP_eq_zero]
  intro a ha
  simp only [decide_eq_true_eq]
  intro hak
  exact h (hak ▸ ha)

/-- In a duplicate-free list, a member occurs exactly once. -/
theorem countOcc_eq_one (k : JStr) (l : List JStr) (hd : l.Nodup)
    (h : k ∈ l) : countOcc k l = 1 := by
  induction l with
  | nil => cases h
  | cons a l ih =>
      rw [countOcc_cons]
      rcases List.mem_cons.mp h with hka | hkl
      · subst hka
        rw [countOcc_eq_zero _ _ (List.nodup_cons.mp hd).1]
        simp
      · have hak : ¬ a = k := fun hak =>
          (List.nodup_cons.mp hd).1 (hak ▸ hkl)
        rw [ih (List.nodup_cons.mp hd).2 hkl, if_neg hak]

/-- Incrementing a counter table raises exactly the bumped key by one. -/
theorem statsGet_bump (tbl : Stats) (key k : JStr) :
    statsGet (bump tbl key) k = statsGet tbl k + (if key = k then 1 else 0) := by
  induction tbl with
  | nil =>
      by_cases h : key = k <;> simp [bump, statsGet, h]
  | cons hd rest ih =>
      obtain ⟨ak, av⟩ := hd
      by_cases h1 : ak = key
      · subst h1
        by_cases h2 : ak = k <;> simp [bump, statsGet, h2]
      · by_cases h2 : ak = k
        · subst h2
          have hkk : ¬ key = ak := fun hkk => h1 hkk.symm
          simp [bump, statsGet, h1, hkk]
        · simp [bump, statsGet, h1, h2, ih]

/-- Folding a list of keys into a counter table adds, for each key, its
number of occurrences in the list. -/
theorem statsGet_foldl_bump (l : List JStr) (tbl : Stats) (k : JStr) :
    statsGet (l.foldl bump tbl) k = statsGet tbl k + countOcc k l := by
  induction l generalizing tbl with
  | nil => simp [countOcc]
  | cons a l ih =>
      rw [List.foldl_cons, ih, statsGet_bump, countOcc_cons]
      omega

/-- The aggregator fold, over any starting pair of tables: each label ends
with its starting value plus its total number of occurrences across the
records' topic lists, and likewise for format lists. -/
theorem calculateStats_foldl (data : List Survey) (acc : Stats × Stats)
    (k : JStr) :
    statsGet
        (data.foldl
          (fun acc survey =>
            (survey.topics.foldl bump acc.1,
             survey.podcast_formats.foldl bump acc.2)) acc).1 k =
      statsGet acc.1 k + (data.map (fun s => countOcc k s.topics)).sum ∧
    statsGet
        (data.foldl
          (fun acc survey =>
            (survey.topics.foldl bump acc.1,
             survey.podcast_formats.foldl bump acc.2)) acc).2 k =
      statsGet acc.2 k + (data.map (fun s => countOcc k s.podcast_formats)).sum := by
  induction data generalizing acc with
  | nil => simp
  | cons s data ih =>
      simp only [List.foldl_cons, List.map_cons, List.sum_cons]
      constructor
      · rw [(ih _).1, statsGet_foldl_bump]
        omega
      · rw [(ih _).2, statsGet_foldl_bump]
        omega

/-- When every record's label list is duplicate-free (label lists model
sets), summing per-record occurrence counts of a label counts the records
containing it. -/
theorem sum_count_eq_countP (data : List Survey) (k : JStr)
    (f : Survey → List JStr) (hnd : ∀ s ∈ data, (f s).Nodup) :
    (data.map (fun s => countOcc k (f s))).sum =
      data.countP (fun s => (f s).contains k) := by
  induction data with
  | nil => simp
  | cons s data ih =>
      simp only [List.map_cons, List.sum_cons, List.countP_cons]
      rw [ih (fun t ht => hnd t (List.mem_cons_of_mem s ht))]
      by_cases hk : k ∈ f s
      · rw [countOcc_eq_one k (f s) (hnd s (List.mem_cons_self s data)) hk]
        have : (f s).contains k = true := List.elem_iff.mpr hk
        rw [this]
        simp
        omega
      · rw [countOcc_eq_zero k (f s) hk]
        have hc : (f s).contains k = false := by
          rw [← Bool.not_eq_true]
          exact fun hcc => hk (List.elem_iff.mp hcc)
        simp [hc]
        exact hk

/-- C6: for every record collection whose topic and format lists are
duplicate-free (they model sets), `calculateStats` gives each label a count
equal to the number of records whose topic set (resp. format set) contains
it — each record contributing one per label it carries — and on the empty
collection it produces the empty pair of tables rather than failing. -/
theorem c6_aggregator (data : List Survey)
    (hts : ∀ s ∈ data, s.topics.Nodup)
    (hfs : ∀ s ∈ data, s.podcast_formats.Nodup) :
    (∀ label, statsGet (calculateStats data).1 label =
        data.countP (fun s => s.topics.contains label)) ∧
    (∀ label, statsGet (calculateStats data).2 label =
        data.countP (fun s => s.podcast_formats.contains label)) ∧
    calculateStats ([] : List Survey) = ([], []) := by
  refine ⟨fun label => ?_, fun label => ?_, rfl⟩
  · unfold calculateStats
    rw [(calculateStats_foldl data ([], []) label).1,
      sum_count_eq_countP data label (fun s => s.topics) hts]
    simp [statsGet]
  · unfold calculateStats
    rw [(calculateStats_foldl data ([], []) label).2,
      sum_count_eq_countP data label (fun s => s.podcast_formats) hfs]
    simp [statsGet]

/-- C6, witnessed on two concrete records sharing the topic "Tech": the
aggregated count for "Tech" is the number of records containing it, 2. -/
theorem c6_aggregator_witness :
    statsGet
        (calculateStats
          [{ id := "1".toList, name := [], topics := ["Tech".toList],
             description := [], podcast_formats := ["Solo".toList],
             suggested_guest := none, created_at := [] },
           { id := "2".toList, name := [], topics := ["Tech".toList, "Art".toList],
             description := [], podcast_formats := ["Panel".toList],
             suggested_guest := none, created_at := [] }]).1 "Tech".toList =
      ([{ id := "1".toList, name := [], topics := ["Tech".toList],
          description := [], podcast_formats := ["Solo".toList],
          suggested_guest := none, created_at := [] },
        { id := "2".toList, name := [], topics := ["Tech".toList, "Art".toList],
          description := [], podcast_formats := ["Panel".toList],
          suggested_guest := none, created_at := [] }] : List Survey).countP
        (fun s => s.topics.contains "Tech".toList) :=
  (c6_aggregator _ (by decide) (by decide)).1 "Tech".toList

/-- The displayed slice in drop/take form: drop the preceding pages, take
one page. -/
theorem currentSurveys_eq (l : List Survey) (q : Nat) :
    currentSurveys l q = (l.drop ((q - 1) * itemsPerPage)).take itemsPerPage := by
  unfold currentSurveys jsSlice
  exact (List.take_drop ((q - 1) * itemsPerPage) itemsPerPage l).symm

/-- Shifting the start of an arithmetic index list by one. -/
theorem range'_shift (s n : Nat) :
    List.range' (s + 1) n = (List.range' s n).map (· + 1) := by
  induction n generalizing s with
  | zero => rfl
  | succ n ih =>
      show (s + 1) :: List.range' (s + 2) n = _
      rw [ih (s + 1)]
      rfl

/-- Concatenating the drop/take chunks of size `itemsPerPage` for page
indices 1 through n reassembles any list of length at most
`itemsPerPage * n`. -/
theorem join_chunks (n : Nat) :
    ∀ l : List Survey, l.length ≤ itemsPerPage * n →
      ((List.range' 1 n).map
          (fun q => (l.drop ((q - 1) * itemsPerPage)).take itemsPerPage)).flatten
        = l := by
  induction n with
  | zero =>
      intro l hl
      have hnil : l = [] := List.eq_nil_of_length_eq_zero (by omega)
      subst hnil
      rfl
  | succ n ih =>
      intro l hl
      show ((1 :: List.range' 2 n).map _).flatten = l
      rw [show (2 : Nat) = 1 + 1 from rfl, range'_shift 1 n]
      simp only [List.map_cons, List.map_map, List.flatten_cons]
      have hmap :
          (List.range' 1 n).map
              ((fun q => (l.drop ((q - 1) * itemsPerPage)).take itemsPerPage) ∘
                (· + 1)) =
            (List.range' 1 n).map
              (fun q =>
                ((l.drop itemsPerPage).drop ((q - 1) * itemsPerPage)).take
                  itemsPerPage) := by
        apply List.map_congr_left
        intro q hq
        have hq1 : 1 ≤ q := (List.mem_range'_1.mp hq).1
        simp only [Function.comp]
        rw [List.drop_drop]
        congr 2
        unfold itemsPerPage
        omega
      rw [hmap,
        ih (l.drop itemsPerPage)
          (by
            rw [List.length_drop]
            unfold itemsPerPage at hl ⊢
            omega)]
      show (l.drop ((1 - 1) * itemsPerPage)).take itemsPerPage ++
          l.drop itemsPerPage = l
      rw [show (1 - 1) * itemsPerPage = 0 from rfl, List.drop_zero,
        List.take_append_drop]

/-- C7: for every filtered collection and every page number p ≥ 1, the
displayed slice is the records at zero-based offsets `(p-1)*10` up to
`min(p*10, length)` exclusive, and concatenating the slices of pages 1
through `totalPages` reconstructs the filtered collection exactly (so no
record is repeated and none omitted). -/
theorem c7_pagination (filteredSurveys : List Survey) (p : Nat)
    (hp : 1 ≤ p) :
    currentSurveys filteredSurveys p =
      (filteredSurveys.take
          (min (p * itemsPerPage) filteredSurveys.length)).drop
        ((p - 1) * itemsPerPage) ∧
    ((List.range' 1 (totalPages filteredSurveys.length)).map
        (fun q => currentSurveys filteredSurveys q)).flatten
      = filteredSurveys := by
  constructor
  · unfold currentSurveys jsSlice
    have harith : (p - 1) * itemsPerPage + itemsPerPage = p * itemsPerPage := by
      unfold itemsPerPage
      omega
    rw [harith]
    rcases le_or_lt (p * itemsPerPage) filteredSurveys.length with hle | hlt
    · rw [min_eq_left hle]
    · rw [min_eq_right (le_of_lt hlt),
        List.take_of_length_le (le_of_lt hlt), List.take_length]
  · have hlen : filteredSurveys.length ≤
        itemsPerPage * totalPages filteredSurveys.length := by
      unfold totalPages itemsPerPage
      omega
    calc ((List.range' 1 (totalPages filteredSurveys.length)).map
            (fun q => currentSurveys filteredSurveys q)).flatten
        = ((List.range' 1 (totalPages filteredSurveys.length)).map
            (fun q =>
              (filteredSurveys.drop ((q - 1) * itemsPerPage)).take
                itemsPerPage)).flatten := by
          simp only [currentSurveys_eq]
      _ = filteredSurveys := join_chunks _ filteredSurveys hlen

/-- C7, witnessed on a 12-record collection at page 2: the slice is records
11 and 12, and the two pages joined give back the collection. -/
theorem c7_pagination_witness :
    (currentSurveys (List.replicate 12
        { id := [], name := [], topics := [], description := [],
          podcast_formats := [], suggested_guest := none,
          created_at := [] }) 2 =
      ((List.replicate 12
          { id := [], name := [], topics := [], description := [],
            podcast_formats := [], suggested_guest := none,
            created_at := [] }).take (min (2 * itemsPerPage) 12)).drop
        (1 * itemsPerPage)) ∧
    ((List.range' 1 (totalPages 12)).map
        (fun q => currentSurveys (List.replicate 12
          { id := [], name := [], topics := [], description := [],
            podcast_formats := [], suggested_guest := none,
            created_at := [] }) q)).flatten
      = List.replicate 12
          { id := [], name := [], topics := [], description := [],
            podcast_formats := [], suggested_guest := none,
            created_at := [] } := by
  have h := c7_pagination (List.replicate 12
    { id := [], name := [], topics := [], description := [],
      podcast_formats := [], suggested_guest := none,
      created_at := [] }) 2 (by decide)
  exact ⟨by simpa using h.1, by simpa using h.2⟩

end PodcastSurveys
